import Mathlib

/-!
Shallow embedding of `app.py` (sqlbott): a Flask service that turns a
natural-language question into SQL, binds a row-level-security session
context on the database session, executes the generated SQL, and returns
the query together with its result rows.

External effects (JSON body parsing, credential exchange and connection,
cursor statement execution, the hosted model service) are supplied by an
environment of oracles; the handler control flow, the validation check,
the sanitization chain and the prompt assembly are translated from the
source.  The handler additionally returns the trace of attempted external
actions, so that ordering and "never reached" properties can be stated.
-/

namespace Sqlbott

/-- JSON value as produced by `request.get_json` (numbers modelled as `Int`). -/
inductive JsonVal : Type
  | null : JsonVal
  | bool : Bool → JsonVal
  | int : Int → JsonVal
  | str : String → JsonVal
  | arr : List JsonVal → JsonVal
  | obj : List (String × JsonVal) → JsonVal

/-- Python truthiness `bool(v)` of a JSON value, as used by `if not question or not email`. -/
def truthy : JsonVal → Bool
  | JsonVal.null => false
  | JsonVal.bool b => b
  | JsonVal.int n => n != 0
  | JsonVal.str s => s != ""
  | JsonVal.arr xs => !xs.isEmpty
  | JsonVal.obj kvs => !kvs.isEmpty

/-- Python `dict.get(k)`: `None` when the key is absent.  The handler's
`data.get("question")` and `data.get("emailid")`. -/
def dictGet (data : List (String × JsonVal)) (k : String) : Option JsonVal :=
  List.lookup k data

/-- Truthiness of `dict.get`'s result: `None` is falsy. -/
def truthyOpt : Option JsonVal → Bool
  | none => false
  | some v => truthy v

/-- Python `repr` of a JSON value (single quotes written `\x27`); enough of
`repr` to give `str` a total meaning on non-string values.  No claim inspects
its output on containers. -/
def pyRepr : JsonVal → String
  | JsonVal.null => "None"
  | JsonVal.bool true => "True"
  | JsonVal.bool false => "False"
  | JsonVal.int n => toString n
  | JsonVal.str s => "\x27" ++ s ++ "\x27"
  | JsonVal.arr xs =>
      "[" ++ String.intercalate ", " (xs.attach.map (fun x => pyRepr x.1)) ++ "]"
  | JsonVal.obj kvs =>
      "\x7b" ++ String.intercalate ", "
        (kvs.attach.map (fun kv => "\x27" ++ kv.1.1 ++ "\x27: " ++ pyRepr kv.1.2)) ++ "\x7d"
termination_by v => sizeOf v
decreasing_by
  all_goals simp_wf
  · have := List.sizeOf_lt_of_mem x.2
    omega
  · have h1 := List.sizeOf_lt_of_mem kv.2
    have h2 : sizeOf kv.1.2 < sizeOf kv.1 := by
      obtain ⟨⟨k, v⟩, hm⟩ := kv
      simp
    omega

/-- Python `str(v)`: the string itself for strings, `repr` otherwise (this is
how an f-string interpolates the value). -/
def pyStr : JsonVal → String
  | JsonVal.str s => s
  | v => pyRepr v

/-- Stringification of `dict.get`'s result when interpolated into an f-string. -/
def pyStrOpt : Option JsonVal → String
  | none => "None"
  | some v => pyStr v

/-! ### Sanitization: `.replace("```sql", "").replace("```", "").replace("`", "").strip()` -/

/-- Python `str.replace` on character lists: every non-overlapping occurrence
of `pat` (scanned left to right) is replaced by `repl`; an empty pattern
leaves the string unchanged (the source only uses non-empty patterns). -/
def replChars (pat repl : List Char) : List Char → List Char
  | [] => []
  | c :: cs =>
    if h : pat ≠ [] ∧ pat.isPrefixOf (c :: cs) = true then
      repl ++ replChars pat repl ((c :: cs).drop pat.length)
    else
      c :: replChars pat repl cs
termination_by s => s.length
decreasing_by
  · have hp : 1 ≤ pat.length := by
      cases pat with
      | nil => exact absurd rfl h.1
      | cons p ps => simp
    simp [List.length_drop]
    omega
  · simp

/-- Python `str.replace` lifted to `String`. -/
def pyReplace (s pat repl : String) : String :=
  String.mk (replChars pat.data repl.data s.data)

/-- Whitespace characters removed by Python `str.strip()` (ASCII part). -/
def pyIsSpace (c : Char) : Bool :=
  c = ' ' || c = '\t' || c = '\n' || c = '\r' || c = '\x0b' || c = '\x0c'

/-- Python `str.strip()`: drop leading and trailing whitespace. -/
def pyStrip (s : String) : String :=
  String.mk (((s.data.dropWhile pyIsSpace).reverse.dropWhile pyIsSpace).reverse)

/-- Sanitization applied to the model's completion text in `generate_sql`:
`content.replace("```sql", "").replace("```", "").replace("`", "").strip()`. -/
def sanitize (content : String) : String :=
  pyStrip (pyReplace (pyReplace (pyReplace content "```sql" "") "```" "") "`" "")

/-! ### Schema introspection (`get_schema_info`) -/

/-- Schema description built by `get_schema_info`: insertion-ordered mapping
from `"schema.table"` to the ordered list of `(COLUMN_NAME, DATA_TYPE)` pairs
(the source stores each column as the dict `{"name": c[0], "type": c[1]}`). -/
def SchemaInfo : Type := List (String × List (String × String))

/-- Cursor statements the handler executes, for the trace. -/
inductive Stmt : Type
  | setSessionContext : Option JsonVal → Stmt
  | selectSessionContext : Stmt
  | selectTables : Stmt
  | selectColumns : String → String → Stmt
  | runSql : String → Stmt

/-- Catalog-query oracle for the cursor: the result of the
`INFORMATION_SCHEMA.TABLES` query and, per `(schema, table)`, the result of
the `INFORMATION_SCHEMA.COLUMNS` query.  `Except.error` models a raised
driver exception (its message). -/
structure Cursor : Type where
  tables : Except String (List (String × String))
  columns : String → String → Except String (List (String × String))

/-- Loop body of `get_schema_info`: for each `(schema, table)` fetched from
the tables query, execute the columns query and record
`schema_info[f"{schema}.{table}"]`.  Also returns the trace of issued
catalog statements; an exception aborts the loop. -/
def fetchColumns (c : Cursor) : List (String × String) → Except String SchemaInfo × List Stmt
  | [] => (Except.ok [], [])
  | (sch, tbl) :: rest =>
    match c.columns sch tbl with
    | Except.error e => (Except.error e, [Stmt.selectColumns sch tbl])
    | Except.ok cols =>
      match fetchColumns c rest with
      | (r, tr) =>
        (r.map (fun m => (sch ++ "." ++ tbl, cols) :: m), Stmt.selectColumns sch tbl :: tr)

/-- `get_schema_info(cursor)`: one catalog query for all base tables, then one
catalog query per table for its columns; returns the schema description and
the trace of issued statements. -/
def get_schema_info (c : Cursor) : Except String SchemaInfo × List Stmt :=
  match c.tables with
  | Except.error e => (Except.error e, [Stmt.selectTables])
  | Except.ok ts =>
    match fetchColumns c ts with
    | (r, tr) => (r, Stmt.selectTables :: tr)

/-! ### Prompt assembly (`generate_sql`) -/

/-- Escape of one character inside a JSON string literal
(`json.dumps` default behaviour on the characters that occur here). -/
def jsonEscapeChar (c : Char) : String :=
  if c = '\\' then "\\\\"
  else if c = '"' then "\\\""
  else if c = '\n' then "\\n"
  else if c = '\t' then "\\t"
  else if c = '\r' then "\\r"
  else String.singleton c

/-- JSON string literal with escaping. -/
def jsonStrLit (s : String) : String :=
  "\"" ++ String.join (s.data.map jsonEscapeChar) ++ "\""

/-- `json.dumps` of one column dict `{"name": ..., "type": ...}`. -/
def dumpColumn (c : String × String) : String :=
  "\x7b\"name\": " ++ jsonStrLit c.1 ++ ", \"type\": " ++ jsonStrLit c.2 ++ "\x7d"

/-- `json.dumps` of one `"schema.table": [...]` entry. -/
def dumpTable (t : String × List (String × String)) : String :=
  jsonStrLit t.1 ++ ": [" ++ String.intercalate ", " (t.2.map dumpColumn) ++ "]"

/-- `json.dumps(schema_info)` with the default separators. -/
def jsonDumpsSchema (s : SchemaInfo) : String :=
  "\x7b" ++ String.intercalate ", " (s.map dumpTable) ++ "\x7d"

/-- The fixed system prompt of `generate_sql` (the f-string has no
placeholders, so the text is constant; apostrophes written `\x27`). -/
def system_prompt : String :=
"\nYou are an expert SQL query generator for a warehouse management system. Your role is to generate accurate SQL queries based on user questions about sales, inventory, and purchases.\n\n**DATABASE SCHEMA:**\n- Table: `[dbo].[itemledgerentries]` (alias: `ile`)\n  - Columns: `itemNumber`, `entryType`, `salesAmountActual`, `quantity`, `postingDate`\n- Table: `[dbo].[items]` (alias: `i`)\n  - Columns: `number`, `displayName`\n\n**QUERY PATTERNS TO FOLLOW:**\n\n1. **Total Sales for Specific Item:**\n   - JOIN items table\n   - Filter by `entryType = \x27Sale\x27`\n   - Filter by specific `displayName`\n   - Filter by year using `YEAR(postingDate)`\n   - Use `SUM(ile.salesAmountActual)` with `GROUP BY i.displayName`\n\n2. **Total Overall Sales:**\n   - No JOIN needed\n   - Filter by `entryType = \x27Sale\x27`\n   - Filter by year using `YEAR(postingDate)`\n   - Use `SUM(salesAmountActual)`\n\n3. **Raw Material Purchases:**\n   - No JOIN needed\n   - Filter by `entryType = \x27Purchase\x27`\n   - Filter by year using `YEAR(postingDate)`\n   - Use `SUM(quantity)`\n\n4. **Stock Level Calculations:**\n   - JOIN items table\n   - Use appropriate `entryType IN` combinations:\n     - For finished goods stock: `(\x27Output\x27,\x27Sale\x27)`\n     - For raw material stock: `(\x27Purchase\x27,\x27Consumption\x27)`\n   - Filter by specific `displayName`\n   - Filter by year using `YEAR(postingDate)`\n   - Use `SUM(ile.quantity)` with `GROUP BY i.displayName`\n\n**QUERY RULES:**\n1. Always use table aliases: `ile` for itemledgerentries, `i` for items\n2. Always use full database path: `[dbo].`\n3. For item-specific queries, JOIN with items table: `ON i.number = ile.itemNumber`\n4. Use `YEAR(ile.postingDate)` for date filtering\n5. Include `GROUP BY i.displayName` when using aggregates with item names\n6. Return ONLY the SQL query, no explanations or additional text\n\n**EXAMPLES:**\n- \"Sales of [item] for [year]\" → JOIN + entryType=\x27Sale\x27 + filter displayName + year filter\n- \"Total sales for [year]\" → No JOIN + entryType=\x27Sale\x27 + year filter\n- \"Quantity purchased for [year]\" → No JOIN + entryType=\x27Purchase\x27 + year filter\n- \"Stock of [item] for [year]\" → JOIN + appropriate entryType IN + filter displayName + year filter\n\nGenerate precise SQL queries following these exact patterns.\n    "

/-- The user prompt of `generate_sql`: the f-string embedding
`json.dumps(schema_info)` and the verbatim question. -/
def user_prompt (question : String) (schema_info : SchemaInfo) : String :=
  "\nSchema: " ++ jsonDumpsSchema schema_info ++ "\nQuestion: " ++ question ++ "\nReturn only a valid Fabric SQL query. No markdown.\n"

/-- Prompt assembly: the pair of (system, user) messages sent to the model. -/
def compose_prompts (question : String) (schema_info : SchemaInfo) : String × String :=
  (system_prompt, user_prompt question schema_info)

/-- `generate_sql(question, schema_info)`: compose the prompts, call the model
service (the oracle `model`, which may raise), and sanitize the completion. -/
def generate_sql (model : String → String → Except String String)
    (question : String) (schema_info : SchemaInfo) : Except String String :=
  match model (compose_prompts question schema_info).1 (compose_prompts question schema_info).2 with
  | Except.error e => Except.error e
  | Except.ok content => Except.ok (sanitize content)

/-! ### Execution (`execute_sql`) and the request handler (`query`) -/

/-- `execute_sql(sql, cursor)`: execute the SQL; on success read the column
descriptors and zip them with each fetched row into one mapping per row.
The oracle returns the column names and the raw rows. -/
def execute_sql (exec : String → Except String (List String × List (List JsonVal)))
    (sql : String) : Except String (List (List (String × JsonVal))) :=
  match exec sql with
  | Except.error e => Except.error e
  | Except.ok (cols, rows) => Except.ok (rows.map (fun row => List.zip cols row))

/-- External actions attempted by the handler, in order. -/
inductive Event : Type
  | connectAttempt : Event
  | stmt : Stmt → Event
  | modelCall : Event

/-- Environment of external oracles for one request: the parsed JSON body
(or the parse exception), the outcome of `get_db_connection()`, of the two
context statements, the catalog cursor, the model service and the SQL
execution.  `Except.error` is a raised exception, whose message `str(e)`
becomes the 500 body. -/
structure Env : Type where
  parse : Except String (List (String × JsonVal))
  connect : Except String Unit
  setContext : Except String Unit
  readContext : Except String Unit
  cursor : Cursor
  model : String → String → Except String String
  exec : String → Except String (List String × List (List JsonVal))

/-- Response body of the 500 branch: `jsonify({"error": str(e)})`. -/
def errBody (e : String) : List (String × JsonVal) :=
  [("error", JsonVal.str e)]

/-- Message of the 400 branch (apostrophes written `\x27`). -/
def missingFieldMsg : String :=
  "Both \x27question\x27 and \x27emailid\x27 are required"

/-- The `/query` handler: returns the HTTP status, the JSON response body as
an ordered key-value list, and the trace of attempted external actions.
Translated branch-for-branch from the handler's `try` block; the trailing
`except Exception` is the `Except.error` case of each step. -/
def query (env : Env) : Nat × List (String × JsonVal) × List Event :=
  match env.parse with
  | Except.error e => (500, errBody e, [])
  | Except.ok data =>
    if !truthyOpt (dictGet data "question") || !truthyOpt (dictGet data "emailid") then
      (400, [("error", JsonVal.str missingFieldMsg)], [])
    else
      match env.connect with
      | Except.error e => (500, errBody e, [Event.connectAttempt])
      | Except.ok _ =>
        match env.setContext with
        | Except.error e =>
          (500, errBody e,
            [Event.connectAttempt, Event.stmt (Stmt.setSessionContext (dictGet data "emailid"))])
        | Except.ok _ =>
          match env.readContext with
          | Except.error e =>
            (500, errBody e,
              [Event.connectAttempt, Event.stmt (Stmt.setSessionContext (dictGet data "emailid")),
               Event.stmt Stmt.selectSessionContext])
          | Except.ok _ =>
            match get_schema_info env.cursor with
            | (schemaRes, schemaTrace) =>
              match schemaRes with
              | Except.error e =>
                (500, errBody e,
                  [Event.connectAttempt,
                   Event.stmt (Stmt.setSessionContext (dictGet data "emailid")),
                   Event.stmt Stmt.selectSessionContext] ++ schemaTrace.map Event.stmt)
              | Except.ok schema =>
                match generate_sql env.model (pyStrOpt (dictGet data "question")) schema with
                | Except.error e =>
                  (500, errBody e,
                    [Event.connectAttempt,
                     Event.stmt (Stmt.setSessionContext (dictGet data "emailid")),
                     Event.stmt Stmt.selectSessionContext] ++ schemaTrace.map Event.stmt ++
                    [Event.modelCall])
                | Except.ok sql =>
                  match execute_sql env.exec sql with
                  | Except.error e =>
                    (500, errBody e,
                      [Event.connectAttempt,
                       Event.stmt (Stmt.setSessionContext (dictGet data "emailid")),
                       Event.stmt Stmt.selectSessionContext] ++ schemaTrace.map Event.stmt ++
                      [Event.modelCall, Event.stmt (Stmt.runSql sql)])
                  | Except.ok result =>
                    (200,
                      [("sql", JsonVal.str sql),
                       ("result", JsonVal.arr (result.map JsonVal.obj))],
                      [Event.connectAttempt,
                       Event.stmt (Stmt.setSessionContext (dictGet data "emailid")),
                       Event.stmt Stmt.selectSessionContext] ++ schemaTrace.map Event.stmt ++
                      [Event.modelCall, Event.stmt (Stmt.runSql sql)])

/-- Statements executed on the cursor, extracted from the event trace. -/
def stmtsOf (events : List Event) : List Stmt :=
  events.filterMap (fun ev =>
    match ev with
    | Event.stmt s => some s
    | _ => none)

/-- The backtick character (code point 96). -/
def backtick : Char := Char.ofNat 96

/-! ### Concrete environments used as witnesses -/

/-- Environment whose request body parses to the empty JSON object. -/
def env400 : Env where
  parse := Except.ok []
  connect := Except.ok ()
  setContext := Except.ok ()
  readContext := Except.ok ()
  cursor := { tables := Except.ok [], columns := fun _ _ => Except.ok [] }
  model := fun _ _ => Except.ok ""
  exec := fun _ => Except.ok ([], [])

/-- Environment of a fully successful request. -/
def envSucc : Env where
  parse := Except.ok
    [("question", JsonVal.str "Total sales for year 2024"),
     ("emailid", JsonVal.str "alice@example.com")]
  connect := Except.ok ()
  setContext := Except.ok ()
  readContext := Except.ok ()
  cursor :=
    { tables := Except.ok [("dbo", "items")]
    , columns := fun _ _ => Except.ok [("number", "varchar"), ("displayName", "varchar")] }
  model := fun _ _ => Except.ok "```sql SELECT 1```"
  exec := fun _ => Except.ok (["total"], [[JsonVal.int 5]])

/-- Successful request except that the database rejects the generated SQL. -/
def envExecFail : Env :=
  { envSucc with exec := fun _ => Except.error "exec boom" }

/-- Successful request except that connection acquisition raises. -/
def envConnFail : Env :=
  { envSucc with connect := Except.error "conn boom" }

/-- Request whose body cannot be parsed as JSON. -/
def envParseFail : Env :=
  { envSucc with parse := Except.error "Failed to decode JSON object" }

/-- Successful request whose question is a single space. -/
def envWs : Env :=
  { envSucc with
      parse := Except.ok
        [("question", JsonVal.str " "), ("emailid", JsonVal.str "alice@example.com")] }

/-- Cursor with two tables, for the schema-introspection witness. -/
def cursorTwo : Cursor where
  tables := Except.ok [("dbo", "items"), ("dbo", "itemledgerentries")]
  columns := fun _ tbl =>
    if tbl = "items" then Except.ok [("number", "varchar"), ("displayName", "varchar")]
    else Except.ok [("itemNumber", "varchar"), ("entryType", "varchar")]

/-- Column oracle of `cursorTwo` as a pure function. -/
def colsTwo (_sch tbl : String) : List (String × String) :=
  if tbl = "items" then [("number", "varchar"), ("displayName", "varchar")]
  else [("itemNumber", "varchar"), ("entryType", "varchar")]

/-! ### Helper lemmas -/

/-- Replacing single character `c` by nothing is exactly filtering `c` out. -/
theorem replChars_singleton (c : Char) (s : List Char) :
    replChars [c] [] s = s.filter (fun x => x != c) := by
  induction s with
  | nil => simp [replChars]
  | cons x xs ih =>
    rw [replChars]
    by_cases hxc : c = x
    · subst hxc
      simp [List.isPrefixOf, ih]
    · simp [List.isPrefixOf, hxc, ih, Ne.symm hxc]

/-- Characters of `pyStrip s` come from `s`. -/
theorem mem_of_mem_pyStrip {x : Char} {s : String} (h : x ∈ (pyStrip s).data) :
    x ∈ s.data := by
  simp only [pyStrip] at h
  rw [List.mem_reverse] at h
  have h2 := (List.dropWhile_sublist pyIsSpace).mem h
  rw [List.mem_reverse] at h2
  exact (List.dropWhile_sublist pyIsSpace).mem h2

/-- No backtick survives `sanitize`. -/
theorem backtick_not_mem_sanitize (content : String) :
    backtick ∉ (sanitize content).data := by
  intro hmem
  have h1 := mem_of_mem_pyStrip hmem
  simp only [pyReplace] at h1
  rw [replChars_singleton] at h1
  have h2 := List.of_mem_filter h1
  exact absurd h2 (by decide)

/-- `stmtsOf` distributes over append. -/
theorem stmtsOf_append (l₁ l₂ : List Event) :
    stmtsOf (l₁ ++ l₂) = stmtsOf l₁ ++ stmtsOf l₂ :=
  List.filterMap_append l₁ l₂ _

/-- `stmtsOf` recovers a mapped statement list. -/
theorem stmtsOf_map_stmt (ss : List Stmt) :
    stmtsOf (ss.map Event.stmt) = ss := by
  induction ss with
  | nil => rfl
  | cons s ss ih => simp [stmtsOf, List.filterMap_cons] at ih ⊢; exact ih

/-- Unfolding of `fetchColumns` when every columns query succeeds. -/
theorem fetchColumns_ok (c : Cursor) (colsOf : String → String → List (String × String)) :
    ∀ ts : List (String × String),
      (∀ p ∈ ts, c.columns p.1 p.2 = Except.ok (colsOf p.1 p.2)) →
      fetchColumns c ts =
        (Except.ok (ts.map (fun p => (p.1 ++ "." ++ p.2, colsOf p.1 p.2))),
         ts.map (fun p => Stmt.selectColumns p.1 p.2)) := by
  intro ts
  induction ts with
  | nil => intro _; rfl
  | cons p rest ih =>
    intro hall
    obtain ⟨sch, tbl⟩ := p
    have hhead := hall (sch, tbl) (List.mem_cons_self _ _)
    have hrest := fun q hq => hall q (List.mem_cons_of_mem _ hq)
    simp only [fetchColumns, hhead, ih hrest]
    rfl

/-! ### Claims -/

/-- C1: for every request that reaches successful execution of the generated
SQL (status 200), the session-context-binding statement has already been
executed on the same cursor, strictly before the generated SQL statement:
the statement trace starts with `setSessionContext` and the `runSql`
statement occurs in its tail. -/
theorem query_context_set_before_sql (env : Env)
    (h : (query env).1 = 200) :
    ∃ e rest, stmtsOf (query env).2.2 = Stmt.setSessionContext e :: rest ∧
      ∃ s, Stmt.runSql s ∈ rest := by
  unfold query at h ⊢
  rcases hp : env.parse with e | data <;> simp only [hp] at h ⊢
  · simp at h
  · cases hv : (!truthyOpt (dictGet data "question") || !truthyOpt (dictGet data "emailid")) <;>
      simp only [hv] at h ⊢
    case true => simp at h
    case false =>
      simp only [Bool.false_eq_true, if_false] at h ⊢
      rcases hc : env.connect with e | u <;> simp only [hc] at h ⊢
      · simp at h
      · rcases hs : env.setContext with e | u <;> simp only [hs] at h ⊢
        · simp at h
        · rcases hr : env.readContext with e | u <;> simp only [hr] at h ⊢
          · simp at h
          · rcases hg : get_schema_info env.cursor with ⟨res, tr⟩ <;> simp only [hg] at h ⊢
            rcases res with e | schema <;> simp only [] at h ⊢
            · simp at h
            · rcases hgen : generate_sql env.model (pyStrOpt (dictGet data "question")) schema
                with e | sql <;> simp only [hgen] at h ⊢
              · simp at h
              · rcases hex : execute_sql env.exec sql with e | result <;> simp only [hex] at h ⊢
                · simp at h
                · refine ⟨dictGet data "emailid",
                    Stmt.selectSessionContext :: (tr ++ [Stmt.runSql sql]), ?_, ⟨sql, by simp⟩⟩
                  rw [stmtsOf_append, stmtsOf_append, stmtsOf_map_stmt]
                  simp [stmtsOf]

/-- Witness for C1 at the concrete successful environment. -/
theorem query_context_set_before_sql_witness :
    (query envSucc).1 = 200 ∧
      (∃ e rest, stmtsOf (query envSucc).2.2 = Stmt.setSessionContext e :: rest ∧
        ∃ s, Stmt.runSql s ∈ rest) :=
  ⟨rfl, query_context_set_before_sql envSucc rfl⟩

/-- C2: a request whose body lacks `question` or `emailid`, or has either as
the empty string, gets status 400 with the structured error body, and no
external action (in particular no connection attempt) happens. -/
theorem missing_or_empty_field_400_no_connection (env : Env)
    (data : List (String × JsonVal))
    (hp : env.parse = Except.ok data)
    (hmiss : dictGet data "question" = none ∨ dictGet data "question" = some (JsonVal.str "") ∨
        dictGet data "emailid" = none ∨ dictGet data "emailid" = some (JsonVal.str "")) :
    (query env).1 = 400 ∧
      (query env).2.1 = [("error", JsonVal.str missingFieldMsg)] ∧
      (query env).2.2 = [] := by
  have hcond : (!truthyOpt (dictGet data "question") ||
      !truthyOpt (dictGet data "emailid")) = true := by
    rcases hmiss with h | h | h | h <;> simp [h, truthyOpt, truthy]
  simp [query, hp, hcond]

/-- Witness for C2: the empty JSON object is rejected with 400 and no events. -/
theorem missing_or_empty_field_400_no_connection_witness :
    (query env400).1 = 400 ∧
      (query env400).2.1 = [("error", JsonVal.str missingFieldMsg)] ∧
      (query env400).2.2 = [] :=
  missing_or_empty_field_400_no_connection env400 [] rfl (Or.inl rfl)

/-- C3: any `sql` field of a response body contains no backtick character and
no markdown fence marker (the sanitization step removed them). -/
theorem response_sql_field_no_backticks (env : Env) (s : String)
    (hmem : ("sql", JsonVal.str s) ∈ (query env).2.1) :
    backtick ∉ s.data ∧ ¬ List.IsInfix ("```".data) s.data := by
  unfold query at hmem
  rcases hp : env.parse with e | data <;> simp only [hp] at hmem
  · simp [errBody] at hmem
  · cases hv : (!truthyOpt (dictGet data "question") || !truthyOpt (dictGet data "emailid")) <;>
      simp only [hv] at hmem
    case true => simp at hmem
    case false =>
      simp only [Bool.false_eq_true, if_false] at hmem
      rcases hc : env.connect with e | u <;> simp only [hc] at hmem
      · simp [errBody] at hmem
      · rcases hs : env.setContext with e | u <;> simp only [hs] at hmem
        · simp [errBody] at hmem
        · rcases hr : env.readContext with e | u <;> simp only [hr] at hmem
          · simp [errBody] at hmem
          · rcases hg : get_schema_info env.cursor with ⟨res, tr⟩ <;> simp only [hg] at hmem
            rcases res with e | schema <;> simp only [] at hmem
            · simp [errBody] at hmem
            · rcases hm : env.model (compose_prompts (pyStrOpt (dictGet data "question")) schema).1
                  (compose_prompts (pyStrOpt (dictGet data "question")) schema).2 with e | content <;>
                simp only [generate_sql, hm] at hmem
              · simp [errBody] at hmem
              · rcases hex : execute_sql env.exec (sanitize content) with e | result <;>
                  simp only [hex] at hmem
                · simp [errBody] at hmem
                · simp only [List.mem_cons, List.mem_singleton, Prod.mk.injEq] at hmem
                  rcases hmem with ⟨_, heq⟩ | ⟨hbad, _⟩ | hfalse
                  · have hse : s = sanitize content := by
                      injection heq
                    subst hse
                    refine ⟨backtick_not_mem_sanitize content, ?_⟩
                    intro hinf
                    exact backtick_not_mem_sanitize content (hinf.subset (by decide))
                  · exact absurd hbad (by decide)
                  · exact absurd hfalse (List.not_mem_nil _)

/-- Witness for C3: the sanitized completion of the successful environment. -/
theorem response_sql_field_no_backticks_witness :
    backtick ∉ (sanitize "```sql SELECT 1```").data ∧
      ¬ List.IsInfix ("```".data) ((sanitize "```sql SELECT 1```").data) :=
  response_sql_field_no_backticks envSucc (sanitize "```sql SELECT 1```") (List.Mem.head _)

/-- C4: if the database execution step fails while every earlier step
succeeded, the response is a 500 whose body is exactly the error object, with
no `result` key. -/
theorem exec_failure_500_no_result_field (env : Env) (data : List (String × JsonVal))
    (schema : SchemaInfo) (tr : List Stmt) (sql msg : String)
    (hp : env.parse = Except.ok data)
    (hq : truthyOpt (dictGet data "question") = true)
    (he : truthyOpt (dictGet data "emailid") = true)
    (hc : env.connect = Except.ok ())
    (hs : env.setContext = Except.ok ())
    (hr : env.readContext = Except.ok ())
    (hg : get_schema_info env.cursor = (Except.ok schema, tr))
    (hgen : generate_sql env.model (pyStrOpt (dictGet data "question")) schema = Except.ok sql)
    (hex : execute_sql env.exec sql = Except.error msg) :
    (query env).1 = 500 ∧ (query env).2.1 = errBody msg ∧
      "result" ∉ (query env).2.1.map Prod.fst := by
  simp [query, hp, hq, he, hc, hs, hr, hg, hgen, hex, errBody]

/-- Witness for C4: the environment whose SQL execution raises. -/
theorem exec_failure_500_no_result_field_witness :
    (query envExecFail).1 = 500 ∧ (query envExecFail).2.1 = errBody "exec boom" ∧
      "result" ∉ (query envExecFail).2.1.map Prod.fst :=
  exec_failure_500_no_result_field envExecFail _ _ _ _ "exec boom"
    rfl rfl rfl rfl rfl rfl rfl rfl rfl

/-- C5: prompt assembly is deterministic; equal question and schema inputs
give byte-identical (system, user) prompt pairs. -/
theorem compose_prompts_deterministic (q₁ q₂ : String) (s₁ s₂ : SchemaInfo)
    (hq : q₁ = q₂) (hs : s₁ = s₂) :
    compose_prompts q₁ s₁ = compose_prompts q₂ s₂ := by
  rw [hq, hs]

/-- Witness for C5 at a concrete question and schema. -/
theorem compose_prompts_deterministic_witness :
    compose_prompts "Total sales for year 2024" [("dbo.items", [("number", "varchar")])] =
      compose_prompts "Total sales for year 2024" [("dbo.items", [("number", "varchar")])] :=
  compose_prompts_deterministic _ _ _ _ rfl rfl

/-- C6: when the catalog queries succeed, `get_schema_info` issues exactly one
tables query followed by one columns query per returned table, and returns
the mapping from `"schema.table"` to that table's ordered column list. -/
theorem get_schema_info_one_plus_n_queries (c : Cursor) (ts : List (String × String))
    (colsOf : String → String → List (String × String))
    (htab : c.tables = Except.ok ts)
    (hcols : ∀ p ∈ ts, c.columns p.1 p.2 = Except.ok (colsOf p.1 p.2)) :
    get_schema_info c =
      (Except.ok (ts.map (fun p => (p.1 ++ "." ++ p.2, colsOf p.1 p.2))),
       Stmt.selectTables :: ts.map (fun p => Stmt.selectColumns p.1 p.2)) := by
  simp only [get_schema_info, htab, fetchColumns_ok c colsOf ts hcols]

/-- Witness for C6 on a two-table cursor. -/
theorem get_schema_info_one_plus_n_queries_witness :
    get_schema_info cursorTwo =
      (Except.ok
        [("dbo.items", [("number", "varchar"), ("displayName", "varchar")]),
         ("dbo.itemledgerentries", [("itemNumber", "varchar"), ("entryType", "varchar")])],
       [Stmt.selectTables, Stmt.selectColumns "dbo" "items",
        Stmt.selectColumns "dbo" "itemledgerentries"]) :=
  get_schema_info_one_plus_n_queries cursorTwo
    [("dbo", "items"), ("dbo", "itemledgerentries")] colsTwo rfl
    (by intro p hp; fin_cases hp <;> rfl)

/-- C7 counterexample: the 400 body is not the literal claimed by the spec
sentence; the code uses a different wording. -/
theorem exact_400_message_counterexample :
    (query env400).1 = 400 ∧
      (query env400).2.1 ≠ [("error", JsonVal.str "question and emailid required")] := by
  refine ⟨rfl, ?_⟩
  intro hcontra
  simp [query, env400, missingFieldMsg, dictGet, truthyOpt] at hcontra

/-- C7 amended: when a required field is missing, the 400 body is exactly the
object with key `error` and value `Both \x27question\x27 and \x27emailid\x27 are required`. -/
theorem missing_field_400_exact_body (env : Env) (data : List (String × JsonVal))
    (hp : env.parse = Except.ok data)
    (hmiss : dictGet data "question" = none ∨ dictGet data "emailid" = none) :
    (query env).1 = 400 ∧
      (query env).2.1 =
        [("error", JsonVal.str "Both \x27question\x27 and \x27emailid\x27 are required")] := by
  have hcond : (!truthyOpt (dictGet data "question") ||
      !truthyOpt (dictGet data "emailid")) = true := by
    rcases hmiss with h | h <;> simp [h, truthyOpt]
  simp [query, hp, hcond, missingFieldMsg]

/-- Witness for the amended C7. -/
theorem missing_field_400_exact_body_witness :
    (query env400).1 = 400 ∧
      (query env400).2.1 =
        [("error", JsonVal.str "Both \x27question\x27 and \x27emailid\x27 are required")] :=
  missing_field_400_exact_body env400 [] rfl (Or.inl rfl)

/-- C8: when connection acquisition (credential exchange or connect) raises,
a validated request is answered with status 500 and the error body. -/
theorem connect_failure_500 (env : Env) (data : List (String × JsonVal)) (msg : String)
    (hp : env.parse = Except.ok data)
    (hq : truthyOpt (dictGet data "question") = true)
    (he : truthyOpt (dictGet data "emailid") = true)
    (hc : env.connect = Except.error msg) :
    (query env).1 = 500 ∧ (query env).2.1 = errBody msg := by
  simp [query, hp, hq, he, hc]

/-- Witness for C8: the environment whose connection acquisition raises. -/
theorem connect_failure_500_witness :
    (query envConnFail).1 = 500 ∧ (query envConnFail).2.1 = errBody "conn boom" :=
  connect_failure_500 envConnFail _ "conn boom" rfl rfl rfl rfl

/-- C9: validation answers 400 exactly when `question` or `emailid` is absent
or falsy; when both are truthy the request proceeds to a connection attempt;
and a whitespace-only question is truthy, hence passes validation. -/
theorem validation_rejects_iff_falsy (env : Env) (data : List (String × JsonVal))
    (hp : env.parse = Except.ok data) :
    ((query env).1 = 400 ↔
      (truthyOpt (dictGet data "question") = false ∨
        truthyOpt (dictGet data "emailid") = false)) ∧
    (truthyOpt (dictGet data "question") = true →
      truthyOpt (dictGet data "emailid") = true →
      Event.connectAttempt ∈ (query env).2.2) ∧
    truthy (JsonVal.str " ") = true := by
  have hpass : truthyOpt (dictGet data "question") = true →
      truthyOpt (dictGet data "emailid") = true →
      (query env).1 ≠ 400 ∧ Event.connectAttempt ∈ (query env).2.2 := by
    intro hq he
    unfold query
    simp only [hp, hq, he, Bool.not_true, Bool.or_self, Bool.false_eq_true, if_false]
    rcases hc : env.connect with e | u <;> simp only [hc]
    · exact ⟨by simp, by simp⟩
    · rcases hs : env.setContext with e | u <;> simp only [hs]
      · exact ⟨by simp, by simp⟩
      · rcases hr : env.readContext with e | u <;> simp only [hr]
        · exact ⟨by simp, by simp⟩
        · rcases hg : get_schema_info env.cursor with ⟨res, tr⟩ <;> simp only [hg]
          rcases res with e | schema <;> simp only []
          · exact ⟨by simp, by simp⟩
          · rcases hgen : generate_sql env.model (pyStrOpt (dictGet data "question")) schema
              with e | sql <;> simp only [hgen]
            · exact ⟨by simp, by simp⟩
            · rcases hex : execute_sql env.exec sql with e | result <;> simp only [hex]
              · exact ⟨by simp, by simp⟩
              · exact ⟨by simp, by simp⟩
  refine ⟨⟨?_, ?_⟩, fun hq he => (hpass hq he).2, by decide⟩
  · intro h400
    by_contra hno
    push_neg at hno
    obtain ⟨hq, he⟩ := hno
    rw [Bool.ne_false_iff] at hq he
    exact (hpass hq he).1 h400
  · intro hor
    have hcond : (!truthyOpt (dictGet data "question") ||
        !truthyOpt (dictGet data "emailid")) = true := by
      rcases hor with h | h <;> simp [h]
    simp [query, hp, hcond]

/-- Witness for C9 at the environment whose question is a single space. -/
theorem validation_rejects_iff_falsy_witness :
    (((query envWs).1 = 400 ↔
      (truthyOpt (dictGet
          [("question", JsonVal.str " "), ("emailid", JsonVal.str "alice@example.com")]
          "question") = false ∨
        truthyOpt (dictGet
          [("question", JsonVal.str " "), ("emailid", JsonVal.str "alice@example.com")]
          "emailid") = false)) ∧
      (truthyOpt (dictGet
          [("question", JsonVal.str " "), ("emailid", JsonVal.str "alice@example.com")]
          "question") = true →
        truthyOpt (dictGet
          [("question", JsonVal.str " "), ("emailid", JsonVal.str "alice@example.com")]
          "emailid") = true →
        Event.connectAttempt ∈ (query envWs).2.2) ∧
      truthy (JsonVal.str " ") = true) :=
  validation_rejects_iff_falsy envWs
    [("question", JsonVal.str " "), ("emailid", JsonVal.str "alice@example.com")] rfl

/-- C10: a body that fails JSON parsing is answered from the catch-all with
status 500 and the error body, not with a 400. -/
theorem unparseable_body_500 (env : Env) (msg : String)
    (hp : env.parse = Except.error msg) :
    (query env).1 = 500 ∧ (query env).2.1 = errBody msg ∧ (query env).1 ≠ 400 := by
  simp [query, hp]

/-- Witness for C10: the environment whose body parse raises. -/
theorem unparseable_body_500_witness :
    (query envParseFail).1 = 500 ∧
      (query envParseFail).2.1 = errBody "Failed to decode JSON object" ∧
      (query envParseFail).1 ≠ 400 :=
  unparseable_body_500 envParseFail "Failed to decode JSON object" rfl

end Sqlbott
